import Mathlib

/-!
Shallow embedding of the cloud-formation particle simulation
(`cloudformationsimulation.cpp`) over exact rationals.

The source's `float` arithmetic is modelled by `ℚ`; the external math-library
calls `std::sin` and `std::pow (·, 1.6f)` are modelled as oracle parameters
(`sinf : ℚ → ℚ`, `pw : ℚ → ℚ`), since the simulation only feeds their results
back into field arithmetic.
-/

namespace CloudSim

/-- Embedding of `clampf(x, a, b) = std::max(a, std::min(b, x))`. -/
def clampf (x a b : ℚ) : ℚ := max a (min b x)

/-- Embedding of `struct Puff` (one cloud particle). -/
structure Puff where
  x : ℚ
  y : ℚ
  r : ℚ
  vx : ℚ
  vy : ℚ
  growth : ℚ
  wobble : ℚ
  life : ℚ
  maxLife : ℚ
  whiten : ℚ
deriving DecidableEq

/-- Embedding of `struct Emitter` (a ground source region). -/
structure Emitter where
  x0 : ℚ
  x1 : ℚ
  y : ℚ
  rate : ℚ
deriving DecidableEq

/-- Embedding of `spawnPuff(P, E, winW, winH)`: the new `Puff` pushed onto the
collection. `rnd i` is the value returned by the i-th `frand()` call (each is
`rand()/RAND_MAX ∈ [0,1]`), in source order. -/
def spawnPuff (rnd : ℕ → ℚ) (E : Emitter) : Puff :=
  { x := E.x0 + rnd 0 * (E.x1 - E.x0)
    y := E.y + rnd 1 * 10
    r := 12 + rnd 2 * 10
    vx := (rnd 3 - 0.5) * 8
    vy := 12 + rnd 4 * 10
    growth := 3 + rnd 5 * 6
    wobble := (rnd 6 * 2 - 1) * 0.8
    life := 0
    maxLife := 18 + rnd 7 * 8
    whiten := 0.2 }

/-- `heightNorm = clampf(p.y / winH, 0, 1)` from `updatePuffs`. -/
def heightNorm (winH y : ℚ) : ℚ := clampf (y / winH) 0 1

/-- New vertical velocity in `updatePuffs`: `p.vy = 10*(1 - 0.4*heightNorm) + 8`
(the source writes `up = 1 - 0.4*heightNorm; p.vy = 10*up + 8`). -/
def newVy (winH y : ℚ) : ℚ := 10 * (1 - 0.4 * heightNorm winH y) + 8

/-- New horizontal velocity in `updatePuffs`: `p.vx += (breeze - p.vx) * 0.05`. -/
def newVx (breeze vx : ℚ) : ℚ := vx + (breeze - vx) * 0.05

/-- Radius growth factor in `updatePuffs`: `0.6 + 0.4*(1 - heightNorm)`. -/
def growFactor (winH y : ℚ) : ℚ := 0.6 + 0.4 * (1 - heightNorm winH y)

/-- Post-advection horizontal position in `updatePuffs`, before the wrap check:
`p.x + (p.vx + p.wobble*sin(2*p.life)) * dt`, where `p.vx` and `p.life` have
already been updated this tick (`p.life += dt` and the `vx` easing precede the
`x` update in the source). -/
def advectedX (sinf : ℚ → ℚ) (dt breeze : ℚ) (p : Puff) : ℚ :=
  p.x + (newVx breeze p.vx + p.wobble * sinf (2 * (p.life + dt))) * dt

/-- The two wrap checks at the end of the per-particle update:
`if (p.x < -100) p.x += winW + 200; if (p.x > winW+100) p.x -= winW + 200;`
(the second test sees the result of the first). -/
def wrapX (winW x : ℚ) : ℚ :=
  let x1 := if x < -100 then x + (winW + 200) else x
  if x1 > winW + 100 then x1 - (winW + 200) else x1

/-- Per-particle body of the `for (auto& p : P)` loop in `updatePuffs`,
with `sinf` modelling `std::sin`. Field update order follows the source;
`heightNorm` is computed from the pre-update `p.y`. -/
def updatePuff (sinf : ℚ → ℚ) (dt breeze winW winH : ℚ) (p : Puff) : Puff :=
  { x := wrapX winW (advectedX sinf dt breeze p)
    y := p.y + newVy winH p.y * dt
    r := p.r + p.growth * dt * growFactor winH p.y
    vx := newVx breeze p.vx
    vy := newVy winH p.y
    growth := p.growth
    wobble := p.wobble
    life := p.life + dt
    maxLife := p.maxLife
    whiten := clampf (p.whiten + dt * 0.15) 0 1 }

/-- The removal predicate of the `std::remove_if` call in `updatePuffs`:
`(p.life > p.maxLife) || (p.y - p.r > winH*1.1f)`. -/
def cull (winH : ℚ) (p : Puff) : Bool :=
  decide (p.life > p.maxLife) || decide (p.y - p.r > winH * 1.1)

/-- Embedding of `updatePuffs(P, dt, breeze, winW, winH)`: every particle is
updated in place, then the culled ones are erased. -/
def updatePuffs (sinf : ℚ → ℚ) (dt breeze winW winH : ℚ) (P : List Puff) : List Puff :=
  (P.map (updatePuff sinf dt breeze winW winH)).filter (fun p => !cull winH p)

/-- Per-ring parameters of `drawSoftBlob(cx, cy, R, rgb, alphaPeak, rings)`:
ring `i` (0-indexed) uses `t = (i+1)/rings`, radius `t*R`, and alpha
`alphaPeak * pow(1-t, 1.6)`; `pw` models `x ↦ std::pow(x, 1.6f)`. -/
def softBlobRings (pw : ℚ → ℚ) (R alphaPeak : ℚ) (rings : ℕ) : List (ℚ × ℚ × ℚ) :=
  (List.range rings).map fun i =>
    let t : ℚ := (i + 1) / (rings : ℚ)
    (t, t * R, alphaPeak * pw (1 - t))

/-- One step of the spawn-credit `while` loop
`while (timer >= 1) { spawnPuff(...); timer -= 1; }`, as a fueled structural
recursion: returns (number of spawns, remaining credit). The loop body runs
exactly `⌊c⌋.toNat` times when `0 ≤ c`, so that much fuel is always enough;
when the fuel hits 0 the credit is already below 1 and the `(0, c)` result
agrees with the loop's exit. -/
def drainCredit (fuel : ℕ) (c : ℚ) : ℕ × ℚ :=
  match fuel with
  | 0 => (0, c)
  | fuel + 1 =>
    if 1 ≤ c then
      let rest := drainCredit fuel (c - 1)
      (rest.1 + 1, rest.2)
    else (0, c)

/-- One tick of an emitter's spawn scheduler in `main`:
`timer += dt*rate; while (timer >= 1) { spawn; timer -= 1; }`. -/
def spawnStep (credit dt rate : ℚ) : ℕ × ℚ :=
  drainCredit (⌊credit + dt * rate⌋).toNat (credit + dt * rate)

/-- Total number of particles an emitter spawns over a sequence of tick
deltas, starting from a given credit. -/
def spawnCountOver (credit rate : ℚ) : List ℚ → ℕ
  | [] => 0
  | dt :: ds =>
    (spawnStep credit dt rate).1 + spawnCountOver (spawnStep credit dt rate).2 rate ds

/-- The rate-adjust key events in `main`: `SDLK_UP` adds 0.8 to every
emitter's rate, `SDLK_DOWN` sets every rate to `max(0.6, rate - 0.8)`. -/
inductive RateEvent
  | up
  | down
deriving DecidableEq

/-- Effect of one rate-adjust key event on the pair of persistent emitter
rates (the `for (auto& e : emitters)` loops in the key handler). -/
def rateStepPair (s : ℚ × ℚ) (ev : RateEvent) : ℚ × ℚ :=
  match ev with
  | .up => (s.1 + 0.8, s.2 + 0.8)
  | .down => (max 0.6 (s.1 - 0.8), max 0.6 (s.2 - 0.8))

/-- Folds a sequence of rate-adjust key events over the emitter-rate pair. -/
def applyRateEvents (s : ℚ × ℚ) (evs : List RateEvent) : ℚ × ℚ :=
  evs.foldl rateStepPair s

/-- The two persistent emitters constructed at startup for viewport width `W`:
`{W*0.18, W*0.38, 110, 4.0}` and `{W*0.55, W*0.82, 110, 3.2}`. -/
def initEmitters (W : ℚ) : Emitter × Emitter :=
  (⟨W * 0.18, W * 0.38, 110, 4.0⟩, ⟨W * 0.55, W * 0.82, 110, 3.2⟩)

/-- The simulation-loop state touched by the event handlers in `main`. -/
structure SimState where
  winW : ℚ
  winH : ℚ
  emitters : Emitter × Emitter
  breeze : ℚ
  timerA : ℚ
  timerB : ℚ
  puffs : List Puff

/-- Embedding of the `SDL_WINDOWEVENT_SIZE_CHANGED` handler: stores the new
viewport size and re-anchors both emitters
(`emitters[k].x0/x1 = winW*frac; emitters[k].y = 110`); rates, breeze, spawn
timers and live particles are not touched by the handler. -/
def handleResize (newW newH : ℚ) (s : SimState) : SimState :=
  { s with
    winW := newW
    winH := newH
    emitters :=
      (⟨newW * 0.18, newW * 0.38, 110, s.emitters.1.rate⟩,
       ⟨newW * 0.55, newW * 0.82, 110, s.emitters.2.rate⟩) }

/-- Concrete particle used to instantiate hypothesised theorems: life 0,
maxLife 20, as in the C1 scenario. -/
def pDemo : Puff :=
  { x := 0, y := 0, r := 5, vx := 0, vy := 0, growth := 0, wobble := 0,
    life := 0, maxLife := 20, whiten := 0 }

/-- The `while (timer >= 1)` loop, run with enough fuel on a nonnegative
credit, spawns exactly `⌊c⌋` particles and leaves the fractional part. -/
theorem drainCredit_spec : ∀ (fuel : ℕ) (c : ℚ), 0 ≤ c → (⌊c⌋).toNat ≤ fuel →
    drainCredit fuel c = ((⌊c⌋).toNat, c - (⌊c⌋).toNat) := by
  intro fuel
  induction fuel with
  | zero =>
    intro c hc hf
    have h0 : (⌊c⌋).toNat = 0 := Nat.le_zero.mp hf
    simp [drainCredit, h0]
  | succ n ih =>
    intro c hc hf
    by_cases h1 : 1 ≤ c
    · have hfloor1 : 1 ≤ ⌊c⌋ := Int.le_floor.mpr (by exact_mod_cast h1)
      have hsub : ⌊c - 1⌋ = ⌊c⌋ - 1 := by simp
      have hc1 : (0:ℚ) ≤ c - 1 := by linarith
      have hle : (⌊c - 1⌋).toNat ≤ n := by omega
      rw [drainCredit, if_pos h1, ih (c - 1) hc1 hle]
      rw [Prod.mk.injEq]
      refine ⟨by omega, ?_⟩
      rw [hsub]
      have h2 : (⌊c⌋ - 1).toNat = ⌊c⌋.toNat - 1 := by omega
      have h3 : 1 ≤ ⌊c⌋.toNat := by omega
      rw [h2]
      push_cast [h3]
      ring
    · push_neg at h1
      have h0 : ⌊c⌋ = 0 := Int.floor_eq_zero_iff.mpr ⟨hc, h1⟩
      simp [drainCredit, if_neg (not_le.mpr h1), h0]

/-- Closed form of one spawn-scheduler tick on a nonnegative credit. -/
theorem spawnStep_eq (credit dt rate : ℚ) (h : 0 ≤ credit + dt * rate) :
    spawnStep credit dt rate =
      ((⌊credit + dt * rate⌋).toNat,
        (credit + dt * rate) - (⌊credit + dt * rate⌋).toNat) :=
  drainCredit_spec _ _ h le_rfl

/-- C2: the spawn scheduler is a deterministic fractional-credit accumulator:
a tick adds `dt*rate` to the credit and spawns one particle per whole unit of
the result (its floor), leaving the fractional part; an emitter with rate 4.0
driven with dt=0.1 for 10 ticks spawns exactly 4 particles. -/
theorem c2_spawn_credit (credit dt rate : ℚ) (h : 0 ≤ credit + dt * rate) :
    (spawnStep credit dt rate).1 = (⌊credit + dt * rate⌋).toNat ∧
    (spawnStep credit dt rate).2 =
      (credit + dt * rate) - (⌊credit + dt * rate⌋).toNat ∧
    spawnCountOver 0 4 (List.replicate 10 (0.1 : ℚ)) = 4 := by
  refine ⟨?_, ?_, ?_⟩
  · rw [spawnStep_eq credit dt rate h]
  · rw [spawnStep_eq credit dt rate h]
  · norm_num [spawnCountOver, spawnStep_eq, List.replicate, Int.toNat_zero,
      Int.toNat_one]

/-- Witness for C2 at credit 1/2, dt 1/10, rate 4 (credit becomes 9/10, no
spawn), together with the 10-tick scenario count. -/
theorem c2_spawn_credit_witness :
    (0:ℚ) ≤ 1/2 + (1/10) * 4 ∧ (spawnStep (1/2) (1/10) 4).1 = 0 ∧
    spawnCountOver 0 4 (List.replicate 10 (0.1 : ℚ)) = 4 := by
  have h := c2_spawn_credit (1/2) (1/10) 4 (by norm_num)
  refine ⟨by norm_num, ?_, h.2.2⟩
  rw [h.1]
  norm_num

/-- C4: in `drawSoftBlob` with 8 rings, the last ring (index 7) has radius
fraction t = 1 and alpha `alphaPeak * pow(0, 1.6) = 0`: the outermost ring is
fully transparent. `pw` models `x ↦ std::pow(x, 1.6f)`, which vanishes at 0. -/
theorem c4_outermost_ring_transparent (pw : ℚ → ℚ) (R alphaPeak : ℚ)
    (hpw : pw 0 = 0) :
    (softBlobRings pw R alphaPeak 8)[7]? = some (1, R, 0) := by
  have hstep : (softBlobRings pw R alphaPeak 8)[7]? =
      some ((((7:ℕ):ℚ) + 1) / ((8:ℕ):ℚ),
            ((((7:ℕ):ℚ) + 1) / ((8:ℕ):ℚ)) * R,
            alphaPeak * pw (1 - (((7:ℕ):ℚ) + 1) / ((8:ℕ):ℚ))) := rfl
  rw [hstep]
  norm_num [hpw]

/-- Witness for C4 with `pw` the identity function (which vanishes at 0),
R = 5 and alphaPeak = 3. -/
theorem c4_outermost_ring_transparent_witness :
    (fun x : ℚ => x) 0 = 0 ∧
    (softBlobRings (fun x : ℚ => x) 5 3 8)[7]? = some (1, 5, 0) :=
  ⟨rfl, c4_outermost_ring_transparent (fun x => x) 5 3 rfl⟩

/-- One rate-adjust key event keeps both emitter rates at or above 0.6. -/
theorem rateStepPair_floor (s : ℚ × ℚ) (ev : RateEvent) (h1 : 0.6 ≤ s.1)
    (h2 : 0.6 ≤ s.2) :
    0.6 ≤ (rateStepPair s ev).1 ∧ 0.6 ≤ (rateStepPair s ev).2 := by
  cases ev with
  | up => exact ⟨by simp [rateStepPair]; linarith, by simp [rateStepPair]; linarith⟩
  | down => exact ⟨le_max_left _ _, le_max_left _ _⟩

/-- The 0.6 floor is preserved by any sequence of rate-adjust key events. -/
theorem applyRateEvents_floor : ∀ (evs : List RateEvent) (s : ℚ × ℚ),
    0.6 ≤ s.1 → 0.6 ≤ s.2 →
    0.6 ≤ (applyRateEvents s evs).1 ∧ 0.6 ≤ (applyRateEvents s evs).2 := by
  intro evs
  induction evs with
  | nil => intro s h1 h2; exact ⟨h1, h2⟩
  | cons e es ih =>
    intro s h1 h2
    have h := rateStepPair_floor s e h1 h2
    simpa [applyRateEvents, List.foldl_cons] using
      ih (rateStepPair s e) h.1 h.2

/-- C7: under any sequence of up/down emission-rate key events, starting from
the initial rates 4.0 and 3.2, both persistent emitter rates stay at or above
the positive floor 0.6. -/
theorem c7_rate_floor (evs : List RateEvent) :
    0.6 ≤ (applyRateEvents (4.0, 3.2) evs).1 ∧
    0.6 ≤ (applyRateEvents (4.0, 3.2) evs).2 :=
  applyRateEvents_floor evs (4.0, 3.2) (by norm_num) (by norm_num)

/-- C8: after `updatePuffs`, a particle's vertical velocity equals
`10*(1 - 0.4*clamp(y/winH, 0, 1)) + 8`, a function of its pre-update height
and the viewport height only — changing the incoming `vy` does not change the
outgoing `vy` — while the horizontal velocity is carried over, eased toward
the breeze: `vx + (breeze - vx)*0.05`. -/
theorem c8_velocity_recompute (sinf : ℚ → ℚ) (dt breeze winW winH : ℚ)
    (p : Puff) :
    ((updatePuff sinf dt breeze winW winH p).vy =
        10 * (1 - 0.4 * clampf (p.y / winH) 0 1) + 8) ∧
    (∀ v : ℚ, (updatePuff sinf dt breeze winW winH { p with vy := v }).vy =
        (updatePuff sinf dt breeze winW winH p).vy) ∧
    ((updatePuff sinf dt breeze winW winH p).vx =
        p.vx + (breeze - p.vx) * 0.05) :=
  ⟨rfl, fun _ => rfl, rfl⟩

/-- C9: the resize handler sets the left emitter's span to
(0.18·W, 0.38·W) of the new width; at startup width 960 the span is
(172.8, 364.8) and after resizing to width 480 it is (86.4, 182.4). -/
theorem c9_resize_spans (W H : ℚ) (s : SimState) :
    ((handleResize W H s).emitters.1.x0 = W * 0.18 ∧
     (handleResize W H s).emitters.1.x1 = W * 0.38) ∧
    ((initEmitters 960).1.x0 = 172.8 ∧ (initEmitters 960).1.x1 = 364.8) ∧
    ((handleResize 480 300 s).emitters.1.x0 = 86.4 ∧
     (handleResize 480 300 s).emitters.1.x1 = 182.4) := by
  refine ⟨⟨rfl, rfl⟩, ⟨?_, ?_⟩, ⟨?_, ?_⟩⟩ <;>
    norm_num [initEmitters, handleResize]

/-- C10: a resize event only re-anchors the emitter spans to the new width
and pins both emission heights at the constant 110, independent of the new
viewport height; rates, breeze, spawn timers and the live particle list are
unchanged by the handler. -/
theorem c10_resize_frame (W H : ℚ) (s : SimState) :
    (handleResize W H s).emitters.1.rate = s.emitters.1.rate ∧
    (handleResize W H s).emitters.2.rate = s.emitters.2.rate ∧
    (handleResize W H s).emitters.1.y = 110 ∧
    (handleResize W H s).emitters.2.y = 110 ∧
    (handleResize W H s).emitters.1.x0 = W * 0.18 ∧
    (handleResize W H s).emitters.1.x1 = W * 0.38 ∧
    (handleResize W H s).emitters.2.x0 = W * 0.55 ∧
    (handleResize W H s).emitters.2.x1 = W * 0.82 ∧
    (handleResize W H s).breeze = s.breeze ∧
    (handleResize W H s).timerA = s.timerA ∧
    (handleResize W H s).timerB = s.timerB ∧
    (handleResize W H s).puffs = s.puffs ∧
    (handleResize W H s).winW = W ∧
    (handleResize W H s).winH = H :=
  ⟨rfl, rfl, rfl, rfl, rfl, rfl, rfl, rfl, rfl, rfl, rfl, rfl, rfl, rfl⟩

/-- Bounds of the clamped height fraction: `heightNorm ∈ [0, 1]`. -/
theorem heightNorm_nonneg (winH y : ℚ) : 0 ≤ heightNorm winH y :=
  le_max_left 0 _

/-- Upper bound of the clamped height fraction. -/
theorem heightNorm_le_one (winH y : ℚ) : heightNorm winH y ≤ 1 :=
  max_le (by norm_num) (min_le_left _ _)

/-- Membership after `updatePuffs`: every survivor is the update of some
input particle and passed the cull test. -/
theorem mem_updatePuffs {sinf : ℚ → ℚ} {dt breeze winW winH : ℚ}
    {P : List Puff} {q : Puff} (h : q ∈ updatePuffs sinf dt breeze winW winH P) :
    (∃ p ∈ P, q = updatePuff sinf dt breeze winW winH p) ∧
      q.life ≤ q.maxLife ∧ q.y - q.r ≤ winH * 1.1 := by
  unfold updatePuffs at h
  rw [List.mem_filter] at h
  obtain ⟨hmap, hkeep⟩ := h
  rw [List.mem_map] at hmap
  simp only [cull, Bool.not_eq_true', Bool.or_eq_false_iff,
    decide_eq_false_iff_not, not_lt] at hkeep
  obtain ⟨p, hp, he⟩ := hmap
  exact ⟨⟨p, hp, he.symm⟩, hkeep.1, hkeep.2⟩

/-- Across iterated ticks, a surviving particle's age is its ancestor's age
plus `n*dt`, and its maximum lifetime is unchanged. -/
theorem life_iterate (sinf : ℚ → ℚ) (dt breeze winW winH : ℚ) :
    ∀ (n : ℕ) (P : List Puff) (q : Puff),
      q ∈ (updatePuffs sinf dt breeze winW winH)^[n] P →
      ∃ p ∈ P, q.life = p.life + n * dt ∧ q.maxLife = p.maxLife := by
  intro n
  induction n with
  | zero =>
    intro P q h
    exact ⟨q, by simpa using h, by norm_num, rfl⟩
  | succ n ih =>
    intro P q h
    rw [Function.iterate_succ_apply'] at h
    obtain ⟨⟨p1, hp1, hq⟩, _, _⟩ := mem_updatePuffs h
    obtain ⟨p, hp, hlife, hml⟩ := ih P p1 hp1
    subst hq
    refine ⟨p, hp, ?_, hml⟩
    have hstep : (updatePuff sinf dt breeze winW winH p1).life = p1.life + dt := rfl
    rw [hstep, hlife]
    push_cast
    ring

/-- C1: every particle in the collection immediately after `updatePuffs` has
life at most its maxLife and bottom edge `y - r` at most `1.1` times the
viewport height; and a particle with life 0 and maxLife 20 is absent from the
collection after 21 updates with dt = 1 (life is bumped before the cull test
and removal uses the strict test `life > maxLife`). -/
theorem c1_culling_invariant (sinf : ℚ → ℚ) (dt breeze winW winH : ℚ)
    (P : List Puff) :
    (∀ q ∈ updatePuffs sinf dt breeze winW winH P,
        q.life ≤ q.maxLife ∧ q.y - q.r ≤ winH * 1.1) ∧
    (∀ (breeze2 winW2 winH2 : ℚ) (p : Puff), p.life = 0 → p.maxLife = 20 →
        (updatePuffs sinf 1 breeze2 winW2 winH2)^[21] [p] = []) := by
  constructor
  · intro q hq
    exact (mem_updatePuffs hq).2
  · intro b2 w2 h2 p hlife hml
    rw [List.eq_nil_iff_forall_not_mem]
    intro q hq
    obtain ⟨p0, hp0, hlifeq, hmlq⟩ :=
      life_iterate sinf 1 b2 w2 h2 21 [p] q hq
    have hp0p : p0 = p := List.mem_singleton.mp hp0
    subst hp0p
    rw [Function.iterate_succ_apply'] at hq
    have hinv := (mem_updatePuffs hq).2.1
    rw [hlifeq, hmlq, hlife, hml] at hinv
    norm_num at hinv

/-- Witness for C1: the invariant instantiated on a singleton collection, and
the 21-tick removal scenario run from `pDemo` (life 0, maxLife 20). -/
theorem c1_culling_invariant_witness :
    (∀ q ∈ updatePuffs (fun _ => (0:ℚ)) 1 0 100 100 [pDemo],
        q.life ≤ q.maxLife ∧ q.y - q.r ≤ 100 * 1.1) ∧
    (updatePuffs (fun _ => (0:ℚ)) 1 0 100 100)^[21] [pDemo] = [] :=
  ⟨(c1_culling_invariant (fun _ => 0) 1 0 100 100 [pDemo]).1,
   (c1_culling_invariant (fun _ => 0) 1 0 100 100 [pDemo]).2 0 100 100 pDemo
     rfl rfl⟩

/-- C3: the wrap check applies to the post-advection x of the current tick:
if that x is below -100 the particle's final x is raised by `winW + 200`, and
if it is above `winW + 100` the final x is lowered by `winW + 200`. -/
theorem c3_horizontal_wrap (sinf : ℚ → ℚ) (dt breeze winW winH : ℚ)
    (p : Puff) (hW : 0 < winW) :
    (advectedX sinf dt breeze p < -100 →
      (updatePuff sinf dt breeze winW winH p).x =
        advectedX sinf dt breeze p + (winW + 200)) ∧
    (advectedX sinf dt breeze p > winW + 100 →
      (updatePuff sinf dt breeze winW winH p).x =
        advectedX sinf dt breeze p - (winW + 200)) := by
  set a := advectedX sinf dt breeze p with ha
  constructor <;> intro h <;>
    · show wrapX winW a = _
      simp only [wrapX]
      split_ifs <;> first | rfl | linarith

/-- Witness for C3: a particle advected to x = -300 in a width-100 viewport
is wrapped to x = 0 = -300 + (100 + 200). -/
theorem c3_horizontal_wrap_witness :
    (0:ℚ) < 100 ∧ advectedX (fun _ => (0:ℚ)) 1 0 pDemo - 300 < -100 ∧
    advectedX (fun _ => (0:ℚ)) 1 0 { pDemo with x := -300 } < -100 ∧
    (updatePuff (fun _ => (0:ℚ)) 1 0 100 100 { pDemo with x := -300 }).x =
      advectedX (fun _ => (0:ℚ)) 1 0 { pDemo with x := -300 } + (100 + 200) := by
  have hadv : advectedX (fun _ => (0:ℚ)) 1 0 { pDemo with x := -300 } = -300 := by
    norm_num [advectedX, newVx, pDemo]
  refine ⟨by norm_num, ?_, by rw [hadv]; norm_num, ?_⟩
  · have hadv0 : advectedX (fun _ => (0:ℚ)) 1 0 pDemo = 0 := by
      norm_num [advectedX, newVx, pDemo]
    rw [hadv0]
    norm_num
  · exact (c3_horizontal_wrap (fun _ => 0) 1 0 100 100 { pDemo with x := -300 }
      (by norm_num)).1 (by rw [hadv]; norm_num)

/-- C5: the per-tick radius increment is `growth * dt * (0.6 + 0.4*(1 -
heightNorm))`; it is nonnegative for nonnegative growth and dt (radius is
monotone), strictly larger at lower clamped altitude for positive growth and
dt, and a spawned particle's growth rate lies in [3, 9]. -/
theorem c5_radius_growth (sinf : ℚ → ℚ) (dt breeze winW winH : ℚ) (p : Puff) :
    ((updatePuff sinf dt breeze winW winH p).r =
        p.r + p.growth * dt * growFactor winH p.y) ∧
    (0 ≤ p.growth → 0 ≤ dt → p.r ≤ (updatePuff sinf dt breeze winW winH p).r) ∧
    (∀ g d y1 y2 : ℚ, 0 < g → 0 < d →
        heightNorm winH y1 < heightNorm winH y2 →
        g * d * growFactor winH y2 < g * d * growFactor winH y1) ∧
    (∀ (rnd : ℕ → ℚ) (E : Emitter), 0 ≤ rnd 5 → rnd 5 ≤ 1 →
        3 ≤ (spawnPuff rnd E).growth ∧ (spawnPuff rnd E).growth ≤ 9) := by
  refine ⟨rfl, ?_, ?_, ?_⟩
  · intro hg hdt
    have h1 := heightNorm_le_one winH p.y
    have h2 : 0 ≤ growFactor winH p.y := by unfold growFactor; linarith
    have h3 : 0 ≤ p.growth * dt * growFactor winH p.y :=
      mul_nonneg (mul_nonneg hg hdt) h2
    show p.r ≤ p.r + p.growth * dt * growFactor winH p.y
    linarith
  · intro g d y1 y2 hg hd hlt
    have hgf : growFactor winH y2 < growFactor winH y1 := by
      unfold growFactor
      linarith
    exact mul_lt_mul_of_pos_left hgf (mul_pos hg hd)
  · intro rnd E h0 h1
    constructor
    · show (3:ℚ) ≤ 3 + rnd 5 * 6
      nlinarith
    · show (3:ℚ) + rnd 5 * 6 ≤ 9
      nlinarith

/-- Witness for C5: the radius increment at pDemo (growth 0, dt 1), the
altitude comparison at heights 0 and 100 in a 100-high viewport, and the
spawn growth bounds with all random draws equal to 0. -/
theorem c5_radius_growth_witness :
    ((0:ℚ) ≤ pDemo.growth ∧ (0:ℚ) ≤ 1 ∧
      pDemo.r ≤ (updatePuff (fun _ => (0:ℚ)) 1 0 100 100 pDemo).r) ∧
    (heightNorm 100 0 < heightNorm 100 100 ∧
      (1:ℚ) * 1 * growFactor 100 100 < 1 * 1 * growFactor 100 0) ∧
    ((0:ℚ) ≤ 0 ∧ (0:ℚ) ≤ 1 ∧
      3 ≤ (spawnPuff (fun _ => (0:ℚ)) (initEmitters 960).1).growth) := by
  have hn : heightNorm 100 0 < heightNorm 100 100 := by
    norm_num [heightNorm, clampf]
  refine ⟨⟨by norm_num [pDemo], by norm_num, ?_⟩, ⟨hn, ?_⟩, ⟨le_rfl, by norm_num, ?_⟩⟩
  · exact (c5_radius_growth (fun _ => 0) 1 0 100 100 pDemo).2.1
      (by norm_num [pDemo]) (by norm_num)
  · exact (c5_radius_growth (fun _ => 0) 1 0 100 100 pDemo).2.2.1
      1 1 0 100 (by norm_num) (by norm_num) hn
  · exact ((c5_radius_growth (fun _ => 0) 1 0 100 100 pDemo).2.2.2
      (fun _ => 0) (initEmitters 960).1 le_rfl (by norm_num)).1

/-- A particle record with whiteness above the clamp ceiling; such a value is
never produced by `spawnPuff` (0.2) or `updatePuff` (clamped to [0, 1]). -/
def pOver : Puff :=
  { x := 0, y := 0, r := 0, vx := 0, vy := 0, growth := 0, wobble := 0,
    life := 0, maxLife := 1, whiten := 2 }

/-- Counterexample to C6 as literally stated over arbitrary particle records:
a particle carrying whiteness 2 is clamped down to 1 by the update with
dt = 0, so its whiteness strictly decreases. -/
theorem c6_whiteness_counterexample :
    (0:ℚ) ≤ 0 ∧
    (updatePuff (fun _ => (0:ℚ)) 0 0 100 100 pOver).whiten < pOver.whiten := by
  constructor
  · exact le_refl 0
  · show clampf (pOver.whiten + 0 * 0.15) 0 1 < pOver.whiten
    norm_num [pOver, clampf, min_def, max_def]

/-- C6 (amended): for dt ≥ 0 the post-update whiteness always lies in [0, 1];
it is at least the pre-update whiteness whenever that was at most 1 — which
holds for every particle the program creates, since spawn sets whiteness 0.2
and every update clamps it into [0, 1]. -/
theorem c6_whiteness (sinf : ℚ → ℚ) (dt breeze winW winH : ℚ) (p : Puff)
    (hdt : 0 ≤ dt) :
    (0 ≤ (updatePuff sinf dt breeze winW winH p).whiten ∧
      (updatePuff sinf dt breeze winW winH p).whiten ≤ 1) ∧
    (p.whiten ≤ 1 → p.whiten ≤ (updatePuff sinf dt breeze winW winH p).whiten) ∧
    (∀ (rnd : ℕ → ℚ) (E : Emitter), (spawnPuff rnd E).whiten = 0.2) := by
  refine ⟨⟨le_max_left _ _, max_le (by norm_num) (min_le_left _ _)⟩, ?_,
    fun _ _ => rfl⟩
  intro hw
  show p.whiten ≤ clampf (p.whiten + dt * 0.15) 0 1
  unfold clampf
  apply le_max_of_le_right
  rcases le_total (p.whiten + dt * 0.15) 1 with h | h
  · rw [min_eq_right h]
    linarith
  · rw [min_eq_left h]
    linarith

/-- Witness for C6 at pDemo (whiteness 0 ≤ 1) with dt = 1. -/
theorem c6_whiteness_witness :
    (0:ℚ) ≤ 1 ∧ pDemo.whiten ≤ 1 ∧
    (0 ≤ (updatePuff (fun _ => (0:ℚ)) 1 0 100 100 pDemo).whiten ∧
      (updatePuff (fun _ => (0:ℚ)) 1 0 100 100 pDemo).whiten ≤ 1) ∧
    pDemo.whiten ≤ (updatePuff (fun _ => (0:ℚ)) 1 0 100 100 pDemo).whiten :=
  ⟨by norm_num, by norm_num [pDemo],
   (c6_whiteness (fun _ => 0) 1 0 100 100 pDemo (by norm_num)).1,
   (c6_whiteness (fun _ => 0) 1 0 100 100 pDemo (by norm_num)).2.1
     (by norm_num [pDemo])⟩

end CloudSim
